import Mathlib

/-!
Verification of the MockGeolocateControl of maplibre-gl-manual-geolocate.

This file is a shallow embedding of src/src/MockGeolocateControl.ts (and of
the type declarations of src/src/types.ts).  Geographic coordinates are
modelled over the rationals; the Map Surface and the Marker Primitive are the
external collaborators of the spec, so the control keeps only the facts about
them that the TypeScript class observes or mutates (attached or not, maximum
bounds, markers attached or not, listeners installed or not).  Every external
effect performed by a method is recorded, in program order, in a trace of
Effect values, so that ordering properties of the code can be stated.
-/

/-- The watch state of the control, from src/src/types.ts. -/
inductive WatchState
  | OFF
  | WAITING_ACTIVE
  | ACTIVE_LOCK
deriving DecidableEq, Repr

/-- A geographic coordinate, as the maplibre LngLat class (lng first). -/
structure LngLat where
  lng : ℚ
  lat : ℚ
deriving DecidableEq, Repr

/-- The accepted input shapes of maplibre LngLat.convert: a LngLat instance,
a two or three element array, an object with lng and lat keys, an object with
lon and lat keys, or anything else (which convert rejects). -/
inductive LngLatLike
  | lngLat (p : LngLat)
  | pair (lng lat : ℚ)
  | triple (lng lat alt : ℚ)
  | objLngLat (lng lat : ℚ)
  | objLonLat (lon lat : ℚ)
  | invalid (desc : String)
deriving DecidableEq, Repr

/-- maplibre LngLat.convert: normalizes any accepted shape to a LngLat and
throws on any other shape.  The LngLat constructor itself throws when the
latitude is outside [-90, 90], which convert propagates. -/
def LngLat.convert : LngLatLike → Except String LngLat
  | .lngLat p => .ok p
  | .pair lng lat =>
      if lat < -90 ∨ 90 < lat then .error "Invalid LngLat latitude value: must be between -90 and 90"
      else .ok ⟨lng, lat⟩
  | .triple lng lat _ =>
      if lat < -90 ∨ 90 < lat then .error "Invalid LngLat latitude value: must be between -90 and 90"
      else .ok ⟨lng, lat⟩
  | .objLngLat lng lat =>
      if lat < -90 ∨ 90 < lat then .error "Invalid LngLat latitude value: must be between -90 and 90"
      else .ok ⟨lng, lat⟩
  | .objLonLat lon lat =>
      if lat < -90 ∨ 90 < lat then .error "Invalid LngLat latitude value: must be between -90 and 90"
      else .ok ⟨lon, lat⟩
  | .invalid _ => .error "LngLatLike argument must be a LngLat instance, an object, or an array"

/-- A rectangular maximum-bounds envelope of the map, as maplibre
LngLatBounds observed through getWest, getEast, getSouth, getNorth. -/
structure Bounds where
  west : ℚ
  east : ℚ
  south : ℚ
  north : ℚ
deriving DecidableEq, Repr

/-- The options bag passed to map.fitBounds, from src/src/types.ts.  Only the
maxZoom member is declared there explicitly; the bag is passed through
without being inspected by the control. -/
structure FitBoundsOptions where
  maxZoom : Option ℚ := none
deriving DecidableEq, Repr

/-- The coords member of the event payload, from src/src/types.ts
(GeolocateEventData): latitude, longitude and accuracy. -/
structure Coords where
  latitude : ℚ
  longitude : ℚ
  accuracy : ℚ
deriving DecidableEq, Repr

/-- Event payload of geolocate and outofmaxbounds, from src/src/types.ts:
its only member is coords. -/
structure GeolocateEventData where
  coords : Coords
deriving DecidableEq, Repr

/-- The member names of the GeolocateEventData interface as declared in
src/src/types.ts lines 67 to 73. -/
def GeolocateEventData.fieldNames : List String := ["coords"]

/-- The member names of the coords object of GeolocateEventData as declared
in src/src/types.ts lines 68 to 72. -/
def Coords.fieldNames : List String := ["latitude", "longitude", "accuracy"]

/-- The two event names of the control, from src/src/types.ts. -/
inductive EventType
  | geolocate
  | outofmaxbounds
deriving DecidableEq, Repr

/-- A registered event handler.  Handlers are opaque function references in
the source; here a reference is identified by id, and throws records whether
calling the handler raises an exception. -/
structure Handler where
  id : Nat
  throws : Bool
deriving DecidableEq, Repr

/-- The _eventHandlers table of the control: one optional array of handlers
per event name, exactly as the EventHandlers interface of src/src/types.ts
(a missing entry is distinct from an empty array). -/
structure EventHandlers where
  geolocate : Option (List Handler) := none
  outofmaxbounds : Option (List Handler) := none
deriving DecidableEq, Repr

/-- Read the table entry of one event name. -/
def EventHandlers.entry (e : EventHandlers) : EventType → Option (List Handler)
  | .geolocate => e.geolocate
  | .outofmaxbounds => e.outofmaxbounds

/-- Write the table entry of one event name. -/
def EventHandlers.setEntry (e : EventHandlers) : EventType → Option (List Handler) → EventHandlers
  | .geolocate, l => { e with geolocate := l }
  | .outofmaxbounds, l => { e with outofmaxbounds := l }

/-- The two markers of the control. -/
inductive MarkerKind
  | positionDot
  | accuracyCircle
deriving DecidableEq, Repr

/-- One observable external effect of a control method, recorded in program
order.  fitCamera records the inputs of the camera fit: the source computes
LngLatBounds.fromLngLat(position, accuracy) (an external geometry helper)
and passes it to map.fitBounds together with the stored fitBoundsOptions.
updateAccuracyCircleStyle records the restyling of the accuracy circle
element (its pixel size is viewport projection arithmetic of the external
Map Surface).  fire records a call of the private _fire dispatcher. -/
inductive Effect
  | setWatchState (s : WatchState)
  | updateButtonClasses
  | clearTimeout (id : Nat)
  | scheduleTimeout (id : Nat)
  | addMarkerToMap (m : MarkerKind)
  | removeMarkerFromMap (m : MarkerKind)
  | updateAccuracyCircleStyle
  | setupMapListeners
  | removeMapListeners
  | fitCamera (center : LngLat) (radiusMeters : ℚ) (opts : FitBoundsOptions)
  | fire (name : EventType) (data : GeolocateEventData)
  | removeClickListener
  | removeDomContainer
deriving DecidableEq, Repr

/-- True exactly on fire actions of the given event name. -/
def Effect.isFireOf (name : EventType) : Effect → Bool
  | .fire n _ => n = name
  | _ => false

/-- True exactly on fire actions. -/
def Effect.isFire : Effect → Bool
  | .fire _ _ => true
  | _ => false

/-- True exactly on addMarkerToMap actions. -/
def Effect.isAddMarker : Effect → Bool
  | .addMarkerToMap _ => true
  | _ => false

/-- True exactly on fitCamera actions. -/
def Effect.isFitCamera : Effect → Bool
  | .fitCamera _ _ _ => true
  | _ => false

/-- The state of a MockGeolocateControl instance: the private fields of the
class in src/src/MockGeolocateControl.ts.  Optional references to external
objects (the map, the markers, the DOM container and button, the stored
bound handlers) are modelled by Bool presence flags plus the data the class
reads from them; mapMaxBounds is the maximum-bounds envelope of the attached
map, read through map.getMaxBounds. -/
structure Control where
  position : LngLat
  accuracy : ℚ
  showAccuracyCircle : Bool
  fitBoundsOptions : FitBoundsOptions
  eventHandlers : EventHandlers
  hasMap : Bool
  mapMaxBounds : Option Bounds
  hasContainer : Bool
  hasButton : Bool
  hasOnClickHandler : Bool
  hasPositionMarker : Bool
  hasAccuracyMarker : Bool
  positionMarkerOnMap : Bool
  accuracyMarkerOnMap : Bool
  positionMarkerLngLat : LngLat
  accuracyMarkerLngLat : LngLat
  mapEventListenersSetup : Bool
  hasUpdateCircleHandler : Bool
  watchState : WatchState
  geolocateTimeoutId : Option Nat
deriving DecidableEq, Repr

/-- The constructor options, from src/src/types.ts: only position is
required (absence of the others selects the documented defaults); position
is optional here to model its absence at runtime. -/
structure MockGeolocateControlOptions where
  position : Option LngLatLike
  accuracy : Option ℚ := none
  showAccuracyCircle : Option Bool := none
  fitBoundsOptions : Option FitBoundsOptions := none
deriving DecidableEq, Repr

/-- The MockGeolocateControl constructor: throws when position is absent,
converts position through LngLat.convert (which may throw), and fills the
defaults accuracy 50, showAccuracyCircle true, fitBoundsOptions with
maxZoom 15. -/
def Control.create (o : MockGeolocateControlOptions) : Except String Control := do
  match o.position with
  | none => .error "MockGeolocateControl: position option is required"
  | some raw =>
    let p ← LngLat.convert raw
    .ok
      { position := p
        accuracy := o.accuracy.getD 50
        showAccuracyCircle := o.showAccuracyCircle.getD true
        fitBoundsOptions := o.fitBoundsOptions.getD { maxZoom := some 15 }
        eventHandlers := {}
        hasMap := false
        mapMaxBounds := none
        hasContainer := false
        hasButton := false
        hasOnClickHandler := false
        hasPositionMarker := false
        hasAccuracyMarker := false
        positionMarkerOnMap := false
        accuracyMarkerOnMap := false
        positionMarkerLngLat := p
        accuracyMarkerLngLat := p
        mapEventListenersSetup := false
        hasUpdateCircleHandler := false
        watchState := .OFF
        geolocateTimeoutId := none }

/-- The attached Map Surface, reduced to the only datum the control reads
from it in the modelled paths: its maximum bounds. -/
structure MapSurface where
  maxBounds : Option Bounds
deriving DecidableEq, Repr

/-- onAdd: stores the map, creates the DOM container and button with the
click listener, and creates both markers at the stored position (markers are
created but not added to the map). -/
def Control.onAdd (c : Control) (m : MapSurface) : Control :=
  { c with
    hasMap := true
    mapMaxBounds := m.maxBounds
    hasContainer := true
    hasButton := true
    hasOnClickHandler := true
    hasPositionMarker := true
    hasAccuracyMarker := true
    positionMarkerOnMap := false
    accuracyMarkerOnMap := false
    positionMarkerLngLat := c.position
    accuracyMarkerLngLat := c.position }

/-- _isOutOfMapMaxBounds: with no map or no maximum bounds the position is
never out of bounds; otherwise it is out of bounds when it lies beyond any
of the four edges (strict comparisons in the source, so edge points are in
bounds). -/
def Control.isOutOfMapMaxBounds (c : Control) : Bool :=
  if !c.hasMap then false
  else
    match c.mapMaxBounds with
    | none => false
    | some b =>
        c.position.lng < b.west || c.position.lng > b.east ||
        c.position.lat < b.south || c.position.lat > b.north

/-- _updateAccuracyCircle: returns early without map, accuracy marker or
visible circle; otherwise restyles the circle element from the viewport
projection (external Map Surface arithmetic, recorded as one effect). -/
def Control.updateAccuracyCircle (c : Control) : List Effect :=
  if !c.hasMap || !c.hasAccuracyMarker || !c.showAccuracyCircle then []
  else [Effect.updateAccuracyCircleStyle]

/-- _setupMapEventListeners: returns early without map, when already set up,
or when the circle is hidden; otherwise stores the bound handler, installs
the four viewport listeners and records that they are set up. -/
def Control.setupMapEventListeners (c : Control) : Control × List Effect :=
  if !c.hasMap || c.mapEventListenersSetup || !c.showAccuracyCircle then (c, [])
  else
    ({ c with hasUpdateCircleHandler := true, mapEventListenersSetup := true },
      [Effect.setupMapListeners])

/-- _removeMapEventListeners: returns early without map, when not set up, or
without a stored handler; otherwise removes the four viewport listeners and
clears the stored handler and the flag. -/
def Control.removeMapEventListeners (c : Control) : Control × List Effect :=
  if !c.hasMap || !c.mapEventListenersSetup || !c.hasUpdateCircleHandler then (c, [])
  else
    ({ c with hasUpdateCircleHandler := false, mapEventListenersSetup := false },
      [Effect.removeMapListeners])

/-- First block of _showMarkers: when the accuracy marker exists and the
circle is visible, add it to the map and restyle it. -/
def Control.addAccuracyCircleToMap (c : Control) : Control × List Effect :=
  if c.hasAccuracyMarker && c.showAccuracyCircle then
    ({ c with accuracyMarkerOnMap := true },
      Effect.addMarkerToMap MarkerKind.accuracyCircle ::
        Control.updateAccuracyCircle { c with accuracyMarkerOnMap := true })
  else (c, [])

/-- Second block of _showMarkers: when the position marker exists, add it to
the map on top. -/
def Control.addPositionDotToMap (c : Control) : Control × List Effect :=
  if c.hasPositionMarker then
    ({ c with positionMarkerOnMap := true },
      [Effect.addMarkerToMap MarkerKind.positionDot])
  else (c, [])

/-- _showMarkers: returns early without map; adds the accuracy circle first
(only when it exists and is visible) and restyles it, then adds the position
dot (when it exists), then sets up the viewport listeners. -/
def Control.showMarkers (c : Control) : Control × List Effect :=
  if !c.hasMap then (c, [])
  else
    let s1 := c.addAccuracyCircleToMap
    let s2 := s1.1.addPositionDotToMap
    let s3 := s2.1.setupMapEventListeners
    (s3.1, s1.2 ++ s2.2 ++ s3.2)

/-- First block of _hideMarkers: detach the position marker from the map
when it exists (the marker object is retained). -/
def Control.detachPositionDot (c : Control) : Control × List Effect :=
  if c.hasPositionMarker then
    ({ c with positionMarkerOnMap := false },
      [Effect.removeMarkerFromMap MarkerKind.positionDot])
  else (c, [])

/-- Second block of _hideMarkers: detach the accuracy marker from the map
when it exists (the marker object is retained). -/
def Control.detachAccuracyCircle (c : Control) : Control × List Effect :=
  if c.hasAccuracyMarker then
    ({ c with accuracyMarkerOnMap := false },
      [Effect.removeMarkerFromMap MarkerKind.accuracyCircle])
  else (c, [])

/-- _hideMarkers: detaches each existing marker from the map (the marker
objects are retained), then removes the viewport listeners. -/
def Control.hideMarkers (c : Control) : Control × List Effect :=
  let s1 := c.detachPositionDot
  let s2 := s1.1.detachAccuracyCircle
  let s3 := s2.1.removeMapEventListeners
  (s3.1, s1.2 ++ s2.2 ++ s3.2)

/-- _updateCamera: returns early without map; otherwise fits the camera to
LngLatBounds.fromLngLat(position, accuracy) with the stored options. -/
def Control.updateCamera (c : Control) : List Effect :=
  if !c.hasMap then []
  else [Effect.fitCamera c.position c.accuracy c.fitBoundsOptions]

/-- The event payload object literal built in trigger, setPosition and
setAccuracy: coords with the current latitude, longitude and accuracy. -/
def Control.mkEventData (c : Control) : GeolocateEventData :=
  { coords :=
      { latitude := c.position.lat
        longitude := c.position.lng
        accuracy := c.accuracy } }

/-- The body of the delayed callback scheduled by trigger (the setTimeout
closure of MockGeolocateControl.ts lines 412 to 452).  It does nothing
unless the watch state is still WAITING_ACTIVE; otherwise it either reports
out of bounds and returns to OFF, or activates: show markers, fit the
camera, then fire geolocate; finally it clears the stored timeout id. -/
def Control.geolocateTimeoutCallback (c : Control) : Control × List Effect :=
  if c.watchState ≠ WatchState.WAITING_ACTIVE then (c, [])
  else if c.isOutOfMapMaxBounds then
    let c1 := { c with watchState := WatchState.OFF }
    let data := Control.mkEventData c1
    ({ c1 with geolocateTimeoutId := none },
      [Effect.setWatchState WatchState.OFF, Effect.updateButtonClasses,
        Effect.fire EventType.outofmaxbounds data])
  else
    let c1 := { c with watchState := WatchState.ACTIVE_LOCK }
    let s2 := Control.showMarkers c1
    let tCam := Control.updateCamera s2.1
    let data := Control.mkEventData s2.1
    ({ s2.1 with geolocateTimeoutId := none },
      Effect.setWatchState WatchState.ACTIVE_LOCK :: Effect.updateButtonClasses ::
        s2.2 ++ tCam ++ [Effect.fire EventType.geolocate data])

/-- trigger: returns early without map; from OFF it enters WAITING_ACTIVE,
clears any stale timeout and schedules the delayed callback (tid is the
fresh timeout id produced by setTimeout); from WAITING_ACTIVE it cancels the
pending timeout and returns to OFF; from ACTIVE_LOCK it returns to OFF and
hides the markers. -/
def Control.trigger (c : Control) (tid : Nat) : Control × List Effect :=
  if !c.hasMap then (c, [])
  else
    match c.watchState with
    | WatchState.OFF =>
        let tClear :=
          match c.geolocateTimeoutId with
          | some old => [Effect.clearTimeout old]
          | none => []
        ({ c with watchState := WatchState.WAITING_ACTIVE, geolocateTimeoutId := some tid },
          Effect.setWatchState WatchState.WAITING_ACTIVE :: Effect.updateButtonClasses ::
            tClear ++ [Effect.scheduleTimeout tid])
    | WatchState.WAITING_ACTIVE =>
        let tClear :=
          match c.geolocateTimeoutId with
          | some old => [Effect.clearTimeout old]
          | none => []
        ({ c with watchState := WatchState.OFF, geolocateTimeoutId := none },
          tClear ++ [Effect.setWatchState WatchState.OFF, Effect.updateButtonClasses])
    | WatchState.ACTIVE_LOCK =>
        let c1 := { c with watchState := WatchState.OFF }
        let s := Control.hideMarkers c1
        (s.1,
          Effect.setWatchState WatchState.OFF :: Effect.updateButtonClasses :: s.2)

/-- First block of onRemove: clear the pending timeout when one is stored. -/
def Control.clearPendingTimeout (c : Control) : Control × List Effect :=
  match c.geolocateTimeoutId with
  | some old => ({ c with geolocateTimeoutId := none }, [Effect.clearTimeout old])
  | none => (c, [])

/-- Block of onRemove: remove the button click listener when the button and
the stored bound handler both exist. -/
def Control.removeClickHandler (c : Control) : Control × List Effect :=
  if c.hasButton && c.hasOnClickHandler then
    ({ c with hasOnClickHandler := false }, [Effect.removeClickListener])
  else (c, [])

/-- Block of onRemove: remove the container from the DOM when it exists (the
source also checks that it has a parent node). -/
def Control.removeDomElement (c : Control) : Control × List Effect :=
  if c.hasContainer then (c, [Effect.removeDomContainer]) else (c, [])

/-- Block of onRemove: remove the position marker from the map and drop the
reference, when it exists. -/
def Control.dropPositionMarker (c : Control) : Control × List Effect :=
  if c.hasPositionMarker then
    ({ c with hasPositionMarker := false, positionMarkerOnMap := false },
      [Effect.removeMarkerFromMap MarkerKind.positionDot])
  else (c, [])

/-- Block of onRemove: remove the accuracy marker from the map and drop the
reference, when it exists. -/
def Control.dropAccuracyMarker (c : Control) : Control × List Effect :=
  if c.hasAccuracyMarker then
    ({ c with hasAccuracyMarker := false, accuracyMarkerOnMap := false },
      [Effect.removeMarkerFromMap MarkerKind.accuracyCircle])
  else (c, [])

/-- Last block of onRemove: clear the container, button and map references. -/
def Control.clearRefs (c : Control) : Control :=
  { c with hasContainer := false, hasButton := false, hasMap := false }

/-- onRemove: clears any pending timeout, removes the map listeners, removes
the button click listener, removes the DOM container, removes and drops both
markers, and clears the container, button and map references.  The watch
state field is not touched. -/
def Control.onRemove (c : Control) : Control × List Effect :=
  let s1 := c.clearPendingTimeout
  let s2 := s1.1.removeMapEventListeners
  let s3 := s2.1.removeClickHandler
  let s4 := s3.1.removeDomElement
  let s5 := s4.1.dropPositionMarker
  let s6 := s5.1.dropAccuracyMarker
  (s6.1.clearRefs, s1.2 ++ s2.2 ++ s3.2 ++ s4.2 ++ s5.2 ++ s6.2)

/-- getWatchState accessor. -/
def Control.getWatchState (c : Control) : WatchState := c.watchState

/-- getPosition accessor. -/
def Control.getPosition (c : Control) : LngLat := c.position

/-- getAccuracy accessor. -/
def Control.getAccuracy (c : Control) : ℚ := c.accuracy

/-- setPosition: converts the argument first (a conversion failure therefore
propagates before any field is written), stores the new position, moves each
existing marker to it, restyles the accuracy circle, and, when the control
is in ACTIVE_LOCK, re-evaluates the bounds and fires either outofmaxbounds
or geolocate with the new coordinate. -/
def Control.setPosition (c : Control) (coordinates : LngLatLike) :
    Except String (Control × List Effect) := do
  let p ← LngLat.convert coordinates
  let c1 := { c with position := p }
  let s2 : Control × List Effect :=
    if c1.hasPositionMarker then ({ c1 with positionMarkerLngLat := p }, [])
    else (c1, [])
  let s3 : Control × List Effect :=
    if s2.1.hasAccuracyMarker then
      ({ s2.1 with accuracyMarkerLngLat := p },
        Control.updateAccuracyCircle { s2.1 with accuracyMarkerLngLat := p })
    else (s2.1, [])
  let tFire : List Effect :=
    if s3.1.watchState = WatchState.ACTIVE_LOCK then
      if s3.1.isOutOfMapMaxBounds then
        [Effect.fire EventType.outofmaxbounds (Control.mkEventData s3.1)]
      else
        [Effect.fire EventType.geolocate (Control.mkEventData s3.1)]
    else []
  .ok (s3.1, s2.2 ++ s3.2 ++ tFire)

/-- setAccuracy: stores the new radius, restyles the circle when it exists
and is visible, and, when in ACTIVE_LOCK, fires geolocate with the updated
accuracy. -/
def Control.setAccuracy (c : Control) (accuracy : ℚ) : Control × List Effect :=
  let c1 := { c with accuracy := accuracy }
  let t1 :=
    if c1.hasAccuracyMarker && c1.showAccuracyCircle then
      Control.updateAccuracyCircle c1
    else []
  let t2 :=
    if c1.watchState = WatchState.ACTIVE_LOCK then
      [Effect.fire EventType.geolocate (Control.mkEventData c1)]
    else []
  (c1, t1 ++ t2)

/-- on: creates the handler array of the event when absent, appends the
listener (no deduplication) and returns the control for chaining. -/
def Control.on (c : Control) (type : EventType) (listener : Handler) : Control :=
  let l := (c.eventHandlers.entry type).getD []
  { c with eventHandlers := c.eventHandlers.setEntry type (some (l ++ [listener])) }

/-- Removal of the first occurrence of a handler from an array: the
indexOf plus splice(index, 1) idiom of the off method (indexOf compares by
reference, modelled by equality of Handler values). -/
def eraseFirstHandler : List Handler → Handler → List Handler
  | [], _ => []
  | x :: xs, h => if x = h then xs else x :: eraseFirstHandler xs h

/-- off: returns the control unchanged when the event has no handler array;
otherwise removes the first occurrence of the listener (none when it is not
present) and returns the control for chaining. -/
def Control.off (c : Control) (type : EventType) (listener : Handler) : Control :=
  match c.eventHandlers.entry type with
  | none => c
  | some l =>
      { c with eventHandlers := c.eventHandlers.setEntry type (some (eraseFirstHandler l listener)) }

/-- The handlers a firing of the given event would run: the table entry,
read as the empty array when absent. -/
def Control.handlersOf (c : Control) (type : EventType) : List Handler :=
  (c.eventHandlers.entry type).getD []

/-- The for-of loop of the private _fire dispatcher over one handler array:
each handler is called in order with the single payload object; a handler
that throws ends the loop and the exception escapes _fire (there is no
try/catch in MockGeolocateControl.ts).  Returns the calls made (handler id
with the payload it received, in call order) and whether an exception
escaped. -/
def runHandlers : List Handler → GeolocateEventData → List (Nat × GeolocateEventData) × Bool
  | [], _ => ([], false)
  | h :: rest, data =>
      if h.throws then ([(h.id, data)], true)
      else
        let r := runHandlers rest data
        ((h.id, data) :: r.1, r.2)

/-- _fire: returns without calling anything when the event has no handler
array; otherwise runs the loop over the registered handlers. -/
def Control.fireDispatch (c : Control) (type : EventType) (data : GeolocateEventData) :
    List (Nat × GeolocateEventData) × Bool :=
  match c.eventHandlers.entry type with
  | none => ([], false)
  | some l => runHandlers l data

/-- A sample control as after construction: position (10, 20), all defaults. -/
def sampleBase : Control :=
  { position := ⟨10, 20⟩
    accuracy := 50
    showAccuracyCircle := true
    fitBoundsOptions := { maxZoom := some 15 }
    eventHandlers := {}
    hasMap := false
    mapMaxBounds := none
    hasContainer := false
    hasButton := false
    hasOnClickHandler := false
    hasPositionMarker := false
    hasAccuracyMarker := false
    positionMarkerOnMap := false
    accuracyMarkerOnMap := false
    positionMarkerLngLat := ⟨10, 20⟩
    accuracyMarkerLngLat := ⟨10, 20⟩
    mapEventListenersSetup := false
    hasUpdateCircleHandler := false
    watchState := WatchState.OFF
    geolocateTimeoutId := none }

/-- The sample control attached to a map without maximum bounds. -/
def sampleAttached : Control := sampleBase.onAdd { maxBounds := none }

/-- The sample control after one trigger call: WAITING_ACTIVE with a pending
delayed activation. -/
def sampleWaiting : Control := (sampleAttached.trigger 1).1

lemma clearPendingTimeout_watchState (c : Control) :
    (c.clearPendingTimeout).1.watchState = c.watchState := by
  unfold Control.clearPendingTimeout; split <;> rfl

lemma removeMapEventListeners_watchState (c : Control) :
    (c.removeMapEventListeners).1.watchState = c.watchState := by
  unfold Control.removeMapEventListeners; split <;> rfl

lemma removeClickHandler_watchState (c : Control) :
    (c.removeClickHandler).1.watchState = c.watchState := by
  unfold Control.removeClickHandler; split <;> rfl

lemma removeDomElement_watchState (c : Control) :
    (c.removeDomElement).1.watchState = c.watchState := by
  unfold Control.removeDomElement; split <;> rfl

lemma dropPositionMarker_watchState (c : Control) :
    (c.dropPositionMarker).1.watchState = c.watchState := by
  unfold Control.dropPositionMarker; split <;> rfl

lemma dropAccuracyMarker_watchState (c : Control) :
    (c.dropAccuracyMarker).1.watchState = c.watchState := by
  unfold Control.dropAccuracyMarker; split <;> rfl

lemma clearRefs_watchState (c : Control) : (c.clearRefs).watchState = c.watchState := rfl

/-- Claim C10: onRemove never modifies the watch state: after a detach,
getWatchState returns exactly the value it returned before, whatever state
the control was in. -/
theorem C10_onRemove_keeps_watchState (c : Control) :
    ((Control.onRemove c).1).getWatchState = c.getWatchState := by
  unfold Control.onRemove Control.getWatchState
  rw [clearRefs_watchState, dropAccuracyMarker_watchState, dropPositionMarker_watchState,
    removeDomElement_watchState, removeClickHandler_watchState,
    removeMapEventListeners_watchState, clearPendingTimeout_watchState]

/-- Claim C9: calling trigger on a control that is not attached to a map is
a complete no-op: the state is unchanged and no effect is performed. -/
theorem C9_trigger_without_map (c : Control) (tid : Nat) (h : c.hasMap = false) :
    c.trigger tid = (c, []) := by
  simp [Control.trigger, h]

/-- Witness for C9 at a concrete detached control. -/
theorem C9_trigger_without_map_witness : sampleBase.trigger 3 = (sampleBase, []) :=
  C9_trigger_without_map sampleBase 3 (by decide)

/-- Modelled from the spec: the current position falls strictly within
[west, east] × [south, north].  Written from the spec wording to compare
with the containment the code actually implements. -/
def strictlyWithinBounds (p : LngLat) (b : Bounds) : Bool :=
  b.west < p.lng && p.lng < b.east && b.south < p.lat && p.lat < b.north

/-- A control attached to a map whose maximum bounds are
[139, 140] × [35, 36], positioned on the western edge (lng 139). -/
def edgeControl : Control :=
  { sampleBase with
    position := ⟨139, 35⟩
    hasMap := true
    mapMaxBounds := some ⟨139, 140, 35, 36⟩ }

/-- Counterexample to claim C6: a position on the western edge of the
maximum bounds is not strictly within them, yet the out-of-bounds check of
the code treats it as in bounds (the code uses non-strict containment). -/
theorem C6_counterexample :
    edgeControl.mapMaxBounds = some ⟨139, 140, 35, 36⟩ ∧
    strictlyWithinBounds edgeControl.position ⟨139, 140, 35, 36⟩ = false ∧
    edgeControl.isOutOfMapMaxBounds = false := by
  refine ⟨rfl, by norm_num [strictlyWithinBounds, edgeControl, sampleBase],
    by norm_num [Control.isOutOfMapMaxBounds, edgeControl, sampleBase]⟩

/-- Claim C6 as amended: with no maximum bounds set the position is always
considered within bounds; with bounds set, it is considered within bounds
exactly when it lies within the closed rectangle [west, east] ×
[south, north] (edge points included). -/
theorem C6_bounds_check (c : Control) (b : Bounds) (hm : c.hasMap = true) :
    (c.mapMaxBounds = none → c.isOutOfMapMaxBounds = false) ∧
    (c.mapMaxBounds = some b →
      (c.isOutOfMapMaxBounds = false ↔
        (b.west ≤ c.position.lng ∧ c.position.lng ≤ b.east ∧
         b.south ≤ c.position.lat ∧ c.position.lat ≤ b.north))) := by
  unfold Control.isOutOfMapMaxBounds
  rw [hm]
  constructor
  · intro hb; rw [hb]; rfl
  · intro hb; rw [hb]
    simp [not_lt, and_assoc]


/-- Witness for C6: an attached control with bounds [139, 140] × [35, 36]
and position (140, 36) is reported in bounds. -/
theorem C6_bounds_check_witness :
    ({ edgeControl with position := ⟨140, 36⟩ } : Control).isOutOfMapMaxBounds = false :=
  ((C6_bounds_check { edgeControl with position := ⟨140, 36⟩ } ⟨139, 140, 35, 36⟩
    rfl).2 rfl).mpr (by norm_num)

lemma entry_setEntry_same (e : EventHandlers) (ty : EventType) (v : Option (List Handler)) :
    (e.setEntry ty v).entry ty = v := by
  cases ty <;> rfl

lemma setEntry_entry_self (e : EventHandlers) (ty : EventType) (v : Option (List Handler))
    (h : e.entry ty = v) : e.setEntry ty v = e := by
  cases ty <;> cases e <;> simp_all [EventHandlers.entry, EventHandlers.setEntry]

lemma eraseFirstHandler_of_not_mem (l : List Handler) (h : Handler) (hne : h ∉ l) :
    eraseFirstHandler l h = l := by
  induction l with
  | nil => rfl
  | cons x xs ih =>
      simp only [List.mem_cons, not_or] at hne
      simp only [eraseFirstHandler]
      rw [if_neg (fun hx => hne.1 hx.symm), ih hne.2]

/-- Claim C8: on appends the handler to the registered array of the event
(no deduplication, so a doubly registered handler is called twice per
firing) and off removes exactly the first occurrence found by reference
equality; removing a handler that is not registered changes nothing. -/
theorem C8_on_off (c : Control) (ty : EventType) (h : Handler) (d : GeolocateEventData) :
    ((c.on ty h).handlersOf ty = c.handlersOf ty ++ [h]) ∧
    ((c.off ty h).handlersOf ty = eraseFirstHandler (c.handlersOf ty) h) ∧
    (h ∉ c.handlersOf ty → c.off ty h = c) ∧
    (c.handlersOf ty = [] → h.throws = false →
      ((c.on ty h).on ty h).fireDispatch ty d = ([(h.id, d), (h.id, d)], false)) := by
  refine ⟨?_, ?_, ?_, ?_⟩
  · unfold Control.on Control.handlersOf
    rw [entry_setEntry_same]
    rfl
  · unfold Control.off Control.handlersOf
    cases hE : c.eventHandlers.entry ty with
    | none => simp [hE, eraseFirstHandler]
    | some l => simp [hE, entry_setEntry_same]
  · intro hnm
    unfold Control.off
    cases hE : c.eventHandlers.entry ty with
    | none => rfl
    | some l =>
        have hl : h ∉ l := by
          unfold Control.handlersOf at hnm; rw [hE] at hnm; exact hnm
        dsimp only
        rw [eraseFirstHandler_of_not_mem l h hl, setEntry_entry_self c.eventHandlers ty (some l) hE]
  · intro hemp hth
    unfold Control.fireDispatch
    have h1 : ((c.on ty h).on ty h).eventHandlers.entry ty = some [h, h] := by
      unfold Control.on
      rw [entry_setEntry_same, entry_setEntry_same]
      unfold Control.handlersOf at hemp
      rw [hemp]
      rfl
    rw [h1]
    simp [runHandlers, hth]

/-- Witness for C8 at a concrete control with one registered handler also
being removed and re-registered. -/
theorem C8_on_off_witness :
    ((sampleAttached.on EventType.geolocate ⟨4, false⟩).on EventType.geolocate
        ⟨4, false⟩).fireDispatch EventType.geolocate ⟨⟨1, 2, 3⟩⟩ =
      ([(4, ⟨⟨1, 2, 3⟩⟩), (4, ⟨⟨1, 2, 3⟩⟩)], false) :=
  (C8_on_off sampleAttached EventType.geolocate ⟨4, false⟩ ⟨⟨1, 2, 3⟩⟩).2.2.2 rfl rfl

/-- Claim C7: when coordinate normalization of the setPosition argument
fails, the failure propagates out of setPosition before any field of the
control is written: no updated control (and no effect) is produced, so the
caller retains the state exactly as it was (position, marker coordinates,
watch state and handler table included). -/
theorem C7_setPosition_error (c : Control) (x : LngLatLike) (e : String)
    (h : LngLat.convert x = Except.error e) : c.setPosition x = Except.error e := by
  unfold Control.setPosition
  rw [h]
  rfl

/-- Witness for C7: a latitude of 100 is rejected by normalization and
setPosition reports exactly that error. -/
theorem C7_setPosition_error_witness :
    sampleAttached.setPosition (LngLatLike.objLngLat 10 100) =
      Except.error "Invalid LngLat latitude value: must be between -90 and 90" :=
  C7_setPosition_error sampleAttached (LngLatLike.objLngLat 10 100) _ (by norm_num [LngLat.convert])

lemma runHandlers_no_throw (l : List Handler) (d : GeolocateEventData)
    (h : ∀ g ∈ l, g.throws = false) :
    runHandlers l d = (l.map fun g => (g.id, d), false) := by
  induction l with
  | nil => rfl
  | cons x xs ih =>
      have hx : x.throws = false := h x (List.mem_cons_self x xs)
      have hxs : ∀ g ∈ xs, g.throws = false := fun g hg => h g (List.mem_cons_of_mem x hg)
      simp [runHandlers, hx, ih hxs]

lemma runHandlers_thrower (pre : List Handler) (h : Handler) (post : List Handler)
    (d : GeolocateEventData) (hpre : ∀ g ∈ pre, g.throws = false) (hh : h.throws = true) :
    runHandlers (pre ++ h :: post) d = ((pre.map fun g => (g.id, d)) ++ [(h.id, d)], true) := by
  induction pre with
  | nil => simp [runHandlers, hh]
  | cons x xs ih =>
      have hx : x.throws = false := hpre x (List.mem_cons_self x xs)
      have hxs : ∀ g ∈ xs, g.throws = false := fun g hg => hpre g (List.mem_cons_of_mem x hg)
      simp [runHandlers, hx, ih hxs]

/-- A control with two geolocate handlers, the first of which throws. -/
def twoHandlerControl : Control :=
  { sampleAttached with eventHandlers := { geolocate := some [⟨0, true⟩, ⟨1, false⟩] } }

/-- Counterexample to claim C4: with two registered geolocate handlers of
which the first throws, the firing calls only the first handler (the second
is never invoked) and the exception escapes the _fire call: the for-of loop
of _fire has no try/catch. -/
theorem C4_counterexample :
    (twoHandlerControl.handlersOf EventType.geolocate).length = 2 ∧
    twoHandlerControl.fireDispatch EventType.geolocate ⟨⟨20, 10, 50⟩⟩ =
      ([(0, ⟨⟨20, 10, 50⟩⟩)], true) := by
  constructor <;> rfl

/-- Claim C4 as amended: firing invokes the registered handlers
synchronously in registration order, each receiving the single payload
object; when no handler throws, all of them are invoked and no exception
escapes, but an exception thrown by a handler prevents every later handler
from being invoked and propagates out of the firing call. -/
theorem C4_fire_dispatch (c : Control) (ty : EventType) (d : GeolocateEventData) :
    ((∀ g ∈ c.handlersOf ty, g.throws = false) →
      c.fireDispatch ty d = ((c.handlersOf ty).map fun g => (g.id, d), false)) ∧
    (∀ pre h post, c.handlersOf ty = pre ++ h :: post →
      (∀ g ∈ pre, g.throws = false) → h.throws = true →
      c.fireDispatch ty d = ((pre.map fun g => (g.id, d)) ++ [(h.id, d)], true)) := by
  constructor
  · intro hall
    unfold Control.fireDispatch
    unfold Control.handlersOf at hall ⊢
    cases hE : c.eventHandlers.entry ty with
    | none => rfl
    | some l =>
        rw [hE] at hall
        simp only [Option.getD_some] at hall
        exact runHandlers_no_throw l d hall
  · intro pre h post hsplit hpre hh
    unfold Control.fireDispatch
    unfold Control.handlersOf at hsplit
    cases hE : c.eventHandlers.entry ty with
    | none =>
        rw [hE] at hsplit
        exact absurd hsplit (by simp)
    | some l =>
        rw [hE] at hsplit
        simp only [Option.getD_some] at hsplit
        rw [hsplit]
        exact runHandlers_thrower pre h post d hpre hh

/-- A control with two well-behaved geolocate handlers. -/
def tameHandlersControl : Control :=
  { sampleAttached with eventHandlers := { geolocate := some [⟨7, false⟩, ⟨8, false⟩] } }

/-- Witness for C4: both well-behaved handlers are invoked in order with the
payload and no exception escapes. -/
theorem C4_fire_dispatch_witness :
    tameHandlersControl.fireDispatch EventType.geolocate ⟨⟨1, 1, 1⟩⟩ =
      ([(7, ⟨⟨1, 1, 1⟩⟩), (8, ⟨⟨1, 1, 1⟩⟩)], false) := by
  have h := (C4_fire_dispatch tameHandlersControl EventType.geolocate ⟨⟨1, 1, 1⟩⟩).1 (by decide)
  simpa using h

lemma geolocateTimeoutCallback_stale (c : Control)
    (h : c.watchState ≠ WatchState.WAITING_ACTIVE) :
    c.geolocateTimeoutCallback = (c, []) := by
  unfold Control.geolocateTimeoutCallback
  rw [if_pos h]

/-- Claim C2: trigger in WAITING_ACTIVE cancels the pending delayed
activation (clearTimeout on the stored id, stored id dropped) and returns
the watch state to OFF, firing nothing; and the delayed callback, run on any
control whose watch state is no longer WAITING_ACTIVE, does nothing at all
(no state change, no effect) — in particular on the control that results
from the cancelling trigger. -/
theorem C2_cancellation (c : Control) (tid : Nat)
    (hm : c.hasMap = true) (hw : c.watchState = WatchState.WAITING_ACTIVE) :
    ((c.trigger tid).1.watchState = WatchState.OFF) ∧
    ((c.trigger tid).1.geolocateTimeoutId = none) ∧
    (∀ old, c.geolocateTimeoutId = some old → Effect.clearTimeout old ∈ (c.trigger tid).2) ∧
    ((c.trigger tid).2.filter Effect.isFire = []) ∧
    ((c.trigger tid).1.geolocateTimeoutCallback = ((c.trigger tid).1, [])) ∧
    (∀ cAny : Control, cAny.watchState ≠ WatchState.WAITING_ACTIVE →
      cAny.geolocateTimeoutCallback = (cAny, [])) := by
  have hres : c.trigger tid =
      ({ c with watchState := WatchState.OFF, geolocateTimeoutId := none },
        (match c.geolocateTimeoutId with
          | some old => [Effect.clearTimeout old]
          | none => []) ++ [Effect.setWatchState WatchState.OFF, Effect.updateButtonClasses]) := by
    unfold Control.trigger
    rw [hm, hw]
    rfl
  refine ⟨by rw [hres], by rw [hres], ?_, ?_, ?_, fun cAny h => geolocateTimeoutCallback_stale cAny h⟩
  · intro old hold
    rw [hres, hold]
    simp
  · rw [hres]
    rcases c.geolocateTimeoutId with _ | old <;> simp [Effect.isFire]
  · rw [hres]
    exact geolocateTimeoutCallback_stale _ (by simp)

/-- Witness for C2 at a concrete waiting control with pending timeout id 1. -/
theorem C2_cancellation_witness :
    (sampleWaiting.trigger 2).1.watchState = WatchState.OFF ∧
    Effect.clearTimeout 1 ∈ (sampleWaiting.trigger 2).2 ∧
    ((sampleWaiting.trigger 2).2.filter Effect.isFire = []) ∧
    (sampleWaiting.trigger 2).1.geolocateTimeoutCallback = ((sampleWaiting.trigger 2).1, []) := by
  have h := C2_cancellation sampleWaiting 2 (by decide) (by decide)
  exact ⟨h.1, h.2.2.1 1 (by decide), h.2.2.2.1, h.2.2.2.2.1⟩

lemma onRemove_fst_eq (c : Control) :
    (c.onRemove).1 =
      c.clearPendingTimeout.1.removeMapEventListeners.1.removeClickHandler.1.removeDomElement.1.dropPositionMarker.1.dropAccuracyMarker.1.clearRefs := rfl

lemma clearPendingTimeout_fst (c : Control) :
    (c.clearPendingTimeout).1 = { c with geolocateTimeoutId := none } := by
  rcases c with ⟨pos, acc, sac, fbo, eh, hm, mb, hc, hb, hoc, hpm, ham, pom, aom, pml, aml, mel, huh, ws, tid⟩
  cases tid <;> rfl

lemma removeMapEventListeners_fst (c : Control)
    (h1 : c.mapEventListenersSetup = c.hasUpdateCircleHandler)
    (h2 : c.mapEventListenersSetup = true → c.hasMap = true) :
    (c.removeMapEventListeners).1 =
      { c with mapEventListenersSetup := false, hasUpdateCircleHandler := false } := by
  unfold Control.removeMapEventListeners
  rcases c with ⟨pos, acc, sac, fbo, eh, hm, mb, hc, hb, hoc, hpm, ham, pom, aom, pml, aml, mel, huh, ws, tid⟩
  cases mel <;> cases huh <;> cases hm <;> simp_all

lemma removeClickHandler_fst (c : Control)
    (h3 : c.hasOnClickHandler = true → c.hasButton = true) :
    (c.removeClickHandler).1 = { c with hasOnClickHandler := false } := by
  unfold Control.removeClickHandler
  rcases c with ⟨pos, acc, sac, fbo, eh, hm, mb, hc, hb, hoc, hpm, ham, pom, aom, pml, aml, mel, huh, ws, tid⟩
  cases hb <;> cases hoc <;> simp_all

lemma removeDomElement_fst (c : Control) : (c.removeDomElement).1 = c := by
  unfold Control.removeDomElement
  split <;> rfl

lemma dropPositionMarker_fst (c : Control)
    (h4 : c.positionMarkerOnMap = true → c.hasPositionMarker = true) :
    (c.dropPositionMarker).1 =
      { c with hasPositionMarker := false, positionMarkerOnMap := false } := by
  unfold Control.dropPositionMarker
  rcases c with ⟨pos, acc, sac, fbo, eh, hm, mb, hc, hb, hoc, hpm, ham, pom, aom, pml, aml, mel, huh, ws, tid⟩
  cases hpm <;> cases pom <;> simp_all

lemma dropAccuracyMarker_fst (c : Control)
    (h5 : c.accuracyMarkerOnMap = true → c.hasAccuracyMarker = true) :
    (c.dropAccuracyMarker).1 =
      { c with hasAccuracyMarker := false, accuracyMarkerOnMap := false } := by
  unfold Control.dropAccuracyMarker
  rcases c with ⟨pos, acc, sac, fbo, eh, hm, mb, hc, hb, hoc, hpm, ham, pom, aom, pml, aml, mel, huh, ws, tid⟩
  cases ham <;> cases aom <;> simp_all

/-- Claim C5: detaching the control cancels any pending delayed activation,
removes the map-level listeners it installed, removes both markers, the DOM
container and the click listener, and drops the map, container and button
references with no partial cleanup state; a second detach on the result (in
particular a detach on a control that was never attached, which satisfies
the same invariants with every flag false) is a complete no-op.  The
hypotheses are the class invariants relating the presence flags (listeners
are only ever installed while a map and the stored rebinding handler exist,
the click handler only with the button, a marker can only be on the map if
it exists). -/
theorem C5_idempotent_detach (c : Control)
    (h1 : c.mapEventListenersSetup = c.hasUpdateCircleHandler)
    (h2 : c.mapEventListenersSetup = true → c.hasMap = true)
    (h3 : c.hasOnClickHandler = true → c.hasButton = true)
    (h4 : c.positionMarkerOnMap = true → c.hasPositionMarker = true)
    (h5 : c.accuracyMarkerOnMap = true → c.hasAccuracyMarker = true) :
    ((c.onRemove).1.geolocateTimeoutId = none) ∧
    ((c.onRemove).1.mapEventListenersSetup = false) ∧
    ((c.onRemove).1.hasUpdateCircleHandler = false) ∧
    ((c.onRemove).1.hasOnClickHandler = false) ∧
    ((c.onRemove).1.hasPositionMarker = false) ∧
    ((c.onRemove).1.positionMarkerOnMap = false) ∧
    ((c.onRemove).1.hasAccuracyMarker = false) ∧
    ((c.onRemove).1.accuracyMarkerOnMap = false) ∧
    ((c.onRemove).1.hasContainer = false) ∧
    ((c.onRemove).1.hasButton = false) ∧
    ((c.onRemove).1.hasMap = false) ∧
    ((c.onRemove).1.onRemove = ((c.onRemove).1, [])) := by
  have hfst : (c.onRemove).1 =
      { c with
        geolocateTimeoutId := none
        mapEventListenersSetup := false
        hasUpdateCircleHandler := false
        hasOnClickHandler := false
        hasPositionMarker := false
        positionMarkerOnMap := false
        hasAccuracyMarker := false
        accuracyMarkerOnMap := false
        hasContainer := false
        hasButton := false
        hasMap := false } := by
    have e1 : c.clearPendingTimeout.1 = ({ c with geolocateTimeoutId := none } : Control) :=
      clearPendingTimeout_fst c
    have e2 : ({ c with geolocateTimeoutId := none } : Control).removeMapEventListeners.1 =
        ({ c with geolocateTimeoutId := none, mapEventListenersSetup := false, hasUpdateCircleHandler := false } : Control) :=
      removeMapEventListeners_fst _ h1 h2
    have e3 : ({ c with geolocateTimeoutId := none, mapEventListenersSetup := false, hasUpdateCircleHandler := false } : Control).removeClickHandler.1 =
        ({ c with geolocateTimeoutId := none, mapEventListenersSetup := false, hasUpdateCircleHandler := false, hasOnClickHandler := false } : Control) :=
      removeClickHandler_fst _ h3
    have e4 : ({ c with geolocateTimeoutId := none, mapEventListenersSetup := false, hasUpdateCircleHandler := false, hasOnClickHandler := false } : Control).removeDomElement.1 =
        ({ c with geolocateTimeoutId := none, mapEventListenersSetup := false, hasUpdateCircleHandler := false, hasOnClickHandler := false } : Control) :=
      removeDomElement_fst _
    have e5 : ({ c with geolocateTimeoutId := none, mapEventListenersSetup := false, hasUpdateCircleHandler := false, hasOnClickHandler := false } : Control).dropPositionMarker.1 =
        ({ c with geolocateTimeoutId := none, mapEventListenersSetup := false, hasUpdateCircleHandler := false, hasOnClickHandler := false, hasPositionMarker := false, positionMarkerOnMap := false } : Control) :=
      dropPositionMarker_fst _ h4
    have e6 : ({ c with geolocateTimeoutId := none, mapEventListenersSetup := false, hasUpdateCircleHandler := false, hasOnClickHandler := false, hasPositionMarker := false, positionMarkerOnMap := false } : Control).dropAccuracyMarker.1 =
        ({ c with geolocateTimeoutId := none, mapEventListenersSetup := false, hasUpdateCircleHandler := false, hasOnClickHandler := false, hasPositionMarker := false, positionMarkerOnMap := false, hasAccuracyMarker := false, accuracyMarkerOnMap := false } : Control) :=
      dropAccuracyMarker_fst _ h5
    rw [onRemove_fst_eq, e1, e2, e3, e4, e5, e6]
    rfl
  rw [hfst]
  exact ⟨rfl, rfl, rfl, rfl, rfl, rfl, rfl, rfl, rfl, rfl, rfl, rfl⟩

/-- Witness for C5: detaching a control that is waiting for its delayed
activation cleans everything up, and a second detach is a no-op. -/
theorem C5_idempotent_detach_witness :
    ((sampleWaiting.onRemove).1.hasMap = false) ∧
    ((sampleWaiting.onRemove).1.geolocateTimeoutId = none) ∧
    ((sampleWaiting.onRemove).1.onRemove = ((sampleWaiting.onRemove).1, [])) := by
  have h := C5_idempotent_detach sampleWaiting (by decide) (by decide) (by decide)
    (by decide) (by decide)
  exact ⟨h.2.2.2.2.2.2.2.2.2.2.1, h.1, h.2.2.2.2.2.2.2.2.2.2.2⟩

lemma geolocateTimeoutCallback_oob (c : Control)
    (hw : c.watchState = WatchState.WAITING_ACTIVE)
    (hoob : c.isOutOfMapMaxBounds = true) :
    c.geolocateTimeoutCallback =
      ({ c with watchState := WatchState.OFF, geolocateTimeoutId := none },
        [Effect.setWatchState WatchState.OFF, Effect.updateButtonClasses,
          Effect.fire EventType.outofmaxbounds ⟨⟨c.position.lat, c.position.lng, c.accuracy⟩⟩]) := by
  unfold Control.geolocateTimeoutCallback
  rw [hw, hoob]
  rfl

lemma geolocateTimeoutCallback_inbounds (c : Control)
    (hw : c.watchState = WatchState.WAITING_ACTIVE)
    (hoob : c.isOutOfMapMaxBounds = false) :
    c.geolocateTimeoutCallback =
      ({ (Control.showMarkers { c with watchState := WatchState.ACTIVE_LOCK }).1 with
          geolocateTimeoutId := none },
        Effect.setWatchState WatchState.ACTIVE_LOCK :: Effect.updateButtonClasses ::
          (Control.showMarkers { c with watchState := WatchState.ACTIVE_LOCK }).2 ++
            Control.updateCamera (Control.showMarkers { c with watchState := WatchState.ACTIVE_LOCK }).1 ++
            [Effect.fire EventType.geolocate
              (Control.mkEventData (Control.showMarkers { c with watchState := WatchState.ACTIVE_LOCK }).1)]) := by
  unfold Control.geolocateTimeoutCallback
  rw [hw, hoob]
  rfl

lemma showMarkers_fst_position (c : Control) : (c.showMarkers).1.position = c.position := by
  unfold Control.showMarkers Control.addAccuracyCircleToMap Control.addPositionDotToMap
    Control.setupMapEventListeners
  dsimp only
  split
  · rfl
  · split <;> split <;> split <;> rfl

lemma showMarkers_fst_accuracy (c : Control) : (c.showMarkers).1.accuracy = c.accuracy := by
  unfold Control.showMarkers Control.addAccuracyCircleToMap Control.addPositionDotToMap
    Control.setupMapEventListeners
  dsimp only
  split
  · rfl
  · split <;> split <;> split <;> rfl

lemma showMarkers_no_fire (c : Control) :
    (c.showMarkers).2.filter Effect.isFire = [] := by
  unfold Control.showMarkers Control.addAccuracyCircleToMap Control.addPositionDotToMap
    Control.setupMapEventListeners Control.updateAccuracyCircle
  dsimp only
  split
  · rfl
  · split <;> split <;> split <;> (try split) <;> simp [Effect.isFire]

/-- A control with the accuracy circle disabled, attached and waiting for
its delayed activation. -/
def noCircleWaiting : Control :=
  (({ sampleAttached with showAccuracyCircle := false } : Control).trigger 1).1

/-- Counterexample to claim C1: on a control configured with
showAccuracyCircle false, the in-bounds completion of the delayed
activation transitions to ACTIVE_LOCK and fires exactly one geolocate
event, but only the position marker is added to the map: the accuracy
marker is not shown, so "both markers are shown" fails. -/
theorem C1_counterexample :
    noCircleWaiting.watchState = WatchState.WAITING_ACTIVE ∧
    noCircleWaiting.isOutOfMapMaxBounds = false ∧
    noCircleWaiting.geolocateTimeoutCallback.2.filter Effect.isFire =
      [Effect.fire EventType.geolocate ⟨⟨20, 10, 50⟩⟩] ∧
    Effect.addMarkerToMap MarkerKind.accuracyCircle ∉ noCircleWaiting.geolocateTimeoutCallback.2 ∧
    noCircleWaiting.geolocateTimeoutCallback.1.accuracyMarkerOnMap = false ∧
    noCircleWaiting.geolocateTimeoutCallback.1.watchState = WatchState.ACTIVE_LOCK := by
  refine ⟨rfl, rfl, rfl, by decide, rfl, rfl⟩

/-- Claim C1 as amended: when the delayed activation of a waiting attached
control completes, then, if the position is out of the maximum bounds, the
watch state becomes OFF, exactly one event fires, namely outofmaxbounds
with the current latitude, longitude and accuracy, it fires last (after the
state transition), no marker is added and no camera fit happens; otherwise
the watch state becomes ACTIVE_LOCK, the position marker is shown, the
accuracy marker is shown exactly when the accuracy circle is enabled (not
"both markers" unconditionally), the camera is fitted to the region derived
from the position and accuracy with the configured options, and exactly one
event fires, namely geolocate with the current latitude, longitude and
accuracy, as the last effect, after the state transition and the marker and
camera updates. -/
theorem C1_trigger_completion (c : Control)
    (hw : c.watchState = WatchState.WAITING_ACTIVE) (hm : c.hasMap = true)
    (hpm : c.hasPositionMarker = true) (ham : c.hasAccuracyMarker = true)
    (hpo : c.positionMarkerOnMap = false) (hao : c.accuracyMarkerOnMap = false) :
    (c.isOutOfMapMaxBounds = true →
      (c.geolocateTimeoutCallback.1.watchState = WatchState.OFF ∧
       c.geolocateTimeoutCallback.1.positionMarkerOnMap = false ∧
       c.geolocateTimeoutCallback.1.accuracyMarkerOnMap = false ∧
       c.geolocateTimeoutCallback.2.filter Effect.isFire =
         [Effect.fire EventType.outofmaxbounds ⟨⟨c.position.lat, c.position.lng, c.accuracy⟩⟩] ∧
       c.geolocateTimeoutCallback.2.filter Effect.isAddMarker = [] ∧
       c.geolocateTimeoutCallback.2.filter Effect.isFitCamera = [] ∧
       c.geolocateTimeoutCallback.2.getLast? =
         some (Effect.fire EventType.outofmaxbounds ⟨⟨c.position.lat, c.position.lng, c.accuracy⟩⟩))) ∧
    (c.isOutOfMapMaxBounds = false →
      (c.geolocateTimeoutCallback.1.watchState = WatchState.ACTIVE_LOCK ∧
       c.geolocateTimeoutCallback.1.positionMarkerOnMap = true ∧
       c.geolocateTimeoutCallback.1.accuracyMarkerOnMap = c.showAccuracyCircle ∧
       Effect.addMarkerToMap MarkerKind.positionDot ∈ c.geolocateTimeoutCallback.2 ∧
       (c.showAccuracyCircle = true →
         Effect.addMarkerToMap MarkerKind.accuracyCircle ∈ c.geolocateTimeoutCallback.2) ∧
       Effect.fitCamera c.position c.accuracy c.fitBoundsOptions ∈ c.geolocateTimeoutCallback.2 ∧
       c.geolocateTimeoutCallback.2.filter Effect.isFire =
         [Effect.fire EventType.geolocate ⟨⟨c.position.lat, c.position.lng, c.accuracy⟩⟩] ∧
       c.geolocateTimeoutCallback.2.getLast? =
         some (Effect.fire EventType.geolocate ⟨⟨c.position.lat, c.position.lng, c.accuracy⟩⟩))) := by
  constructor
  · intro hoob
    rw [geolocateTimeoutCallback_oob c hw hoob]
    refine ⟨rfl, hpo, hao, rfl, rfl, rfl, rfl⟩
  · intro hoob
    rw [geolocateTimeoutCallback_inbounds c hw hoob]
    by_cases hsac : c.showAccuracyCircle = true
    · by_cases hmel : c.mapEventListenersSetup = true
      · have eS : Control.showMarkers { c with watchState := WatchState.ACTIVE_LOCK } =
            ({ c with watchState := WatchState.ACTIVE_LOCK, accuracyMarkerOnMap := true, positionMarkerOnMap := true },
              [Effect.addMarkerToMap MarkerKind.accuracyCircle, Effect.updateAccuracyCircleStyle,
                Effect.addMarkerToMap MarkerKind.positionDot]) := by
          unfold Control.showMarkers Control.addAccuracyCircleToMap Control.addPositionDotToMap
            Control.setupMapEventListeners Control.updateAccuracyCircle
          dsimp only
          simp [hm, hpm, ham, hsac, hmel]
        rw [eS]
        refine ⟨rfl, rfl, by simp [hsac], by simp, fun _ => by simp, by simp [Control.updateCamera, hm],
          by simp [Effect.isFire, Control.updateCamera, hm, Control.mkEventData], ?_⟩
        simp [Control.updateCamera, hm, Control.mkEventData]
      · have eS : Control.showMarkers { c with watchState := WatchState.ACTIVE_LOCK } =
            ({ c with watchState := WatchState.ACTIVE_LOCK, accuracyMarkerOnMap := true, positionMarkerOnMap := true, hasUpdateCircleHandler := true, mapEventListenersSetup := true },
              [Effect.addMarkerToMap MarkerKind.accuracyCircle, Effect.updateAccuracyCircleStyle,
                Effect.addMarkerToMap MarkerKind.positionDot, Effect.setupMapListeners]) := by
          unfold Control.showMarkers Control.addAccuracyCircleToMap Control.addPositionDotToMap
            Control.setupMapEventListeners Control.updateAccuracyCircle
          dsimp only
          simp [hm, hpm, ham, hsac, hmel]
        rw [eS]
        refine ⟨rfl, rfl, by simp [hsac], by simp, fun _ => by simp, by simp [Control.updateCamera, hm],
          by simp [Effect.isFire, Control.updateCamera, hm, Control.mkEventData], ?_⟩
        simp [Control.updateCamera, hm, Control.mkEventData]
    · have hsacf : c.showAccuracyCircle = false := by
        cases hS : c.showAccuracyCircle
        · rfl
        · exact absurd hS hsac
      have eS : Control.showMarkers { c with watchState := WatchState.ACTIVE_LOCK } =
          ({ c with watchState := WatchState.ACTIVE_LOCK, positionMarkerOnMap := true },
            [Effect.addMarkerToMap MarkerKind.positionDot]) := by
        unfold Control.showMarkers Control.addAccuracyCircleToMap Control.addPositionDotToMap
          Control.setupMapEventListeners Control.updateAccuracyCircle
        dsimp only
        simp [hm, hpm, ham, hsacf]
      rw [eS]
      refine ⟨rfl, rfl, by simp [hsacf, hao], by simp, fun hx => absurd hx hsac,
        by simp [Control.updateCamera, hm],
        by simp [Effect.isFire, Control.updateCamera, hm, Control.mkEventData], ?_⟩
      simp [Control.updateCamera, hm, Control.mkEventData]

/-- Witness for C1 at the concrete sample waiting control (accuracy circle
enabled, no maximum bounds): the activation completes in bounds. -/
theorem C1_trigger_completion_witness :
    sampleWaiting.geolocateTimeoutCallback.1.watchState = WatchState.ACTIVE_LOCK ∧
    sampleWaiting.geolocateTimeoutCallback.1.positionMarkerOnMap = true ∧
    sampleWaiting.geolocateTimeoutCallback.1.accuracyMarkerOnMap = sampleWaiting.showAccuracyCircle ∧
    sampleWaiting.geolocateTimeoutCallback.2.filter Effect.isFire =
      [Effect.fire EventType.geolocate ⟨⟨20, 10, 50⟩⟩] := by
  have h := (C1_trigger_completion sampleWaiting rfl rfl rfl rfl rfl rfl).2 rfl
  exact ⟨h.1, h.2.1, h.2.2.1, h.2.2.2.2.2.2.1⟩

lemma updateCamera_no_fire (c : Control) :
    ∀ a ∈ Control.updateCamera c, a.isFire = false := by
  unfold Control.updateCamera
  split <;> simp [Effect.isFire]

/-- Counterexample to claim C3: a payload actually delivered by a completed
activation consists of the coords triple only; neither the payload interface
nor its coords member declares a timestamp. -/
theorem C3_counterexample :
    Effect.fire EventType.geolocate ⟨⟨20, 10, 50⟩⟩ ∈ sampleWaiting.geolocateTimeoutCallback.2 ∧
    GeolocateEventData.fieldNames = ["coords"] ∧
    Coords.fieldNames = ["latitude", "longitude", "accuracy"] ∧
    "timestamp" ∉ GeolocateEventData.fieldNames ∧
    "timestamp" ∉ Coords.fieldNames := by
  refine ⟨by decide, rfl, rfl, by decide, by decide⟩

/-- Claim C3 as amended: every payload handed to _fire by the delayed
activation carries the coordinate triple (latitude, longitude, accuracy
radius) of the current position; the payload has no timestamp member — its
only member is coords with exactly those three entries. -/
theorem C3_event_payload (c : Control) :
    (∀ name d, Effect.fire name d ∈ c.geolocateTimeoutCallback.2 →
      d = ⟨⟨c.position.lat, c.position.lng, c.accuracy⟩⟩) ∧
    GeolocateEventData.fieldNames = ["coords"] ∧
    Coords.fieldNames = ["latitude", "longitude", "accuracy"] ∧
    "timestamp" ∉ GeolocateEventData.fieldNames ∧
    "timestamp" ∉ Coords.fieldNames := by
  refine ⟨?_, rfl, rfl, by decide, by decide⟩
  intro name d hmem
  by_cases hw : c.watchState = WatchState.WAITING_ACTIVE
  · cases hoob : c.isOutOfMapMaxBounds with
    | true =>
        rw [geolocateTimeoutCallback_oob c hw hoob] at hmem
        simp at hmem
        exact hmem.2
    | false =>
        rw [geolocateTimeoutCallback_inbounds c hw hoob] at hmem
        simp at hmem
        rcases hmem with h | h | h
        · exact absurd (List.mem_filter.mpr ⟨h, rfl⟩)
            (by rw [showMarkers_no_fire]; exact List.not_mem_nil _)
        · exact absurd (updateCamera_no_fire _ _ h) (by simp [Effect.isFire])
        · rw [h.2]
          unfold Control.mkEventData
          rw [showMarkers_fst_position, showMarkers_fst_accuracy]
  · rw [geolocateTimeoutCallback_stale c hw] at hmem
    cases hmem

/-- Witness for C3: the payload delivered by the sample waiting control is
the coords triple of its position and accuracy. -/
theorem C3_event_payload_witness :
    (⟨⟨20, 10, 50⟩⟩ : GeolocateEventData) =
      ⟨⟨sampleWaiting.position.lat, sampleWaiting.position.lng, sampleWaiting.accuracy⟩⟩ :=
  (C3_event_payload sampleWaiting).1 EventType.geolocate ⟨⟨20, 10, 50⟩⟩ (by decide)
